import Mathlib

/-!
Verification development for the differential-analysis pipeline in
src/libflux/flux-core/src/bin/analyze_query_log.rs.

The external semantic analyzer is modelled as a parameter of type
String to AnalysisBehavior: for a given source string it either accepts,
rejects with a structured error, or crashes (a panic of the analyzer
implementation, observed through the catch_unwind boundary in main).
Every definition below mirrors a region of main in analyze_query_log.rs;
stderr output is modelled as a list of strings, one entry per eprintln
call, with the lines of the three concurrent stages collected per stage
(their interleaving is unspecified by the concurrent program).
-/

namespace AnalyzeQueryLog

/-- Structured error returned by an analyzer: pretty renders the error
against a source text (err.error.pretty in the worker), prettyError is the
source-independent rendering used by the single-file fast path
(err.error.pretty_error at line 57). -/
structure FluxError where
  pretty : String → String
  prettyError : String

/-- Behavior of one analyzer configuration on one source string: accept,
reject with a structured error, or crash inside the analyzer. -/
inductive AnalysisBehavior where
  | accepts
  | rejects (e : FluxError)
  | panics

/-- Result of wrapping one analyzer call in std::panic::catch_unwind
(lines 109-121): either the call returned a Result, or a panic was caught. -/
inductive CallResult where
  | returned (r : Except FluxError Unit)
  | caughtPanic

/-- Model of std::panic::catch_unwind around one analyzer call. -/
def catchUnwind : AnalysisBehavior → CallResult
  | .accepts => .returned (.ok ())
  | .rejects e => .returned (.error e)
  | .panics => .caughtPanic

/-- Message of the fatal panic re-raised by the worker when an analyzer
call crashed (lines 113 and 120). -/
def panicMsg (i : Nat) (source : String) : String :=
  "Panic at source " ++ toString i ++ ": " ++ source

/-- Header line of a divergence report (lines 126 and 136). -/
def headerLine (i : Nat) : String := "### " ++ toString i

/-- Report line for a (Rejected, Accepted) item (lines 129-132). -/
def missingErrorsLine (rendered : String) : String :=
  "Missing errors when the features are enabled: " ++ rendered

/-- Report line for an (Accepted, Rejected) item (lines 139-142). -/
def newErrorsLine (rendered : String) : String :=
  "New errors when the features are enabled: " ++ rendered

/-- Separator printed after each divergence report (lines 133 and 143). -/
def separatorLine : String := "-------------------------------"

/-- One Comparator Pool work unit (lines 106-167): run both analyzer
configurations under catch_unwind, classify the pair of outcomes, and
either return the report lines emitted for this item (possibly none) or
fail with the re-raised panic message. The (Err, Err) diff sub-check is
guarded by a constant false condition in the source and emits nothing. -/
def processItem (analyzer newAnalyzer : String → AnalysisBehavior)
    (i : Nat) (source : String) : Except String (List String) :=
  match catchUnwind (analyzer source) with
  | .caughtPanic => .error (panicMsg i source)
  | .returned currentResult =>
    match catchUnwind (newAnalyzer source) with
    | .caughtPanic => .error (panicMsg i source)
    | .returned newResult =>
      .ok
        (match currentResult, newResult with
         | .ok _, .ok _ => []
         | .error err, .ok _ =>
           [headerLine i, source, missingErrorsLine (err.pretty source),
            separatorLine]
         | .ok _, .error err =>
           [headerLine i, source, newErrorsLine (err.pretty source),
            separatorLine]
         | .error _, .error _ => [])

/-- True when the Dispatcher discards the item at index i because of the
optional skip argument (lines 91-95). -/
def skipB (skip : Option Nat) (i : Nat) : Bool :=
  match skip with
  | some k => decide (i < k)
  | none => false

/-- Dispatcher loop (lines 90-99) starting at running index i: walks the
corpus sequence, discards items whose index is skipped, and otherwise
inspects the element result; a failing element aborts the stage with its
error, an ok element is sent as an (index, source) pair. Returns the list
of sent pairs together with the error the stage stopped on, if any. -/
def dispatchFrom (skip : Option Nat) :
    Nat → List (Except String String) → List (Nat × String) × Option String
  | _, [] => ([], none)
  | i, result :: rest =>
    if skipB skip i then dispatchFrom skip (i + 1) rest
    else
      match result with
      | .error e => ([], some e)
      | .ok source =>
        let tail := dispatchFrom skip (i + 1) rest
        ((i, source) :: tail.1, tail.2)

/-- Dispatcher stage (lines 89-102): enumeration starts at index 0. -/
def dispatch (skip : Option Nat) (sources : List (Except String String)) :
    List (Nat × String) × Option String :=
  dispatchFrom skip 0 sources

/-- Comparator Pool stage (lines 103-168) in its sequential semantics:
process the sent items in order, concatenating the report blocks and
counting one completion signal per fully processed item; a re-raised
panic aborts the stage, leaving later items unprocessed. Returns
((report lines, completion count), optional panic message). -/
def comparatorRun (analyzer newAnalyzer : String → AnalysisBehavior) :
    List (Nat × String) → (List String × Nat) × Option String
  | [] => (([], 0), none)
  | (i, source) :: rest =>
    match processItem analyzer newAnalyzer i source with
    | .error msg => (([], 0), some msg)
    | .ok reports =>
      let tail := comparatorRun analyzer newAnalyzer rest
      ((reports ++ tail.1.1, tail.1.2 + 1), tail.2)

/-- Heartbeat line emitted by the Reporter (line 175). -/
def heartbeatLine (count : Nat) : String :=
  "Checked " ++ toString count ++ " queries"

/-- Reporter stage (lines 170-178) after receiving n completion signals:
the count is incremented once per signal and a heartbeat line is emitted
exactly when the incremented count is a multiple of 100. Returns the
final count and the heartbeat lines in emission order. -/
def reporterRun : Nat → Nat × List String
  | 0 => (0, [])
  | n + 1 =>
    ((reporterRun n).1 + 1,
      (reporterRun n).2 ++
        if ((reporterRun n).1 + 1) % 100 == 0 then
          [heartbeatLine ((reporterRun n).1 + 1)]
        else [])

/-- Final summary line (line 184). -/
def doneLine (count : Nat) : String :=
  "Done! Checked " ++ toString count ++ " queries"

/-- Observable outcome of the process: exit code (0 on success, nonzero
otherwise), the diagnostic surfaced on failure (the error returned from
main, or the panic message on an abort), and the stderr lines of the
stages. -/
structure RunResult where
  exitCode : Nat
  errMsg : Option String
  stderr : List String
  deriving DecidableEq

/-- Mapping of one record of the tabular reader to a corpus element
(line 65): a failing record propagates its error, an ok record yields its
first column. The unwrap of get(0) cannot fail on the records the csv
reader produces, since every yielded record has at least one field; an
empty record is modelled as a failing element. -/
def csvElement (record : Except String (List String)) : Except String String :=
  match record with
  | .error e => .error e
  | .ok row =>
    match row with
    | [] => .error "called unwrap on a missing first column"
    | field :: _ => .ok field

/-- Corpus sequence produced for a tabular file (lines 60-68): one element
per record yielded by the record reader, in file order. -/
def csvSources (records : List (Except String (List String))) :
    List (Except String String) :=
  records.map csvElement

/-- Input to main, after the corpus has been opened: a single
analyzable-source file with its contents, a tabular file with the records
its reader yields, an embedded relational store with the rows the fixed
query returns, or a failure to open the corpus at all (lines 52-80). -/
inductive CorpusInput where
  | fluxFile (source : String)
  | csvFile (records : List (Except String (List String)))
  | sqlite (rows : List (Except String String))
  | openError (e : String)

/-- Pipeline path of main (lines 82-186): run the Dispatcher over the
corpus sequence, the Comparator Pool over the sent items, and the
Reporter over the completion signals. A worker panic aborts the process;
otherwise a Dispatcher error is returned from main (line 181); otherwise
the final summary line is printed and main returns success. -/
def pipelineRun (analyzer newAnalyzer : String → AnalysisBehavior)
    (skip : Option Nat) (rows : List (Except String String)) : RunResult :=
  let sent := dispatch skip rows
  let work := comparatorRun analyzer newAnalyzer sent.1
  match work.2 with
  | some msg =>
    { exitCode := 101, errMsg := some msg
      stderr := work.1.1 ++ (reporterRun work.1.2).2 }
  | none =>
    match sent.2 with
    | some e =>
      { exitCode := 1, errMsg := some e
        stderr := work.1.1 ++ (reporterRun work.1.2).2 }
    | none =>
      { exitCode := 0, errMsg := none
        stderr := work.1.1 ++ (reporterRun work.1.2).2 ++
          [doneLine work.1.2] }

/-- Top level of main: the .flux extension takes the single-file fast
path (lines 53-59), which analyzes the file once with the candidate
configuration and returns immediately: success without further output on
acceptance, the pretty-printed error on rejection, a process abort if the
analyzer crashes (no catch_unwind guards this call). Every other input
goes through the pipeline; a corpus that failed to open is returned from
main as its error. -/
def mainRun (analyzer newAnalyzer : String → AnalysisBehavior)
    (skip : Option Nat) : CorpusInput → RunResult
  | .fluxFile source =>
    match newAnalyzer source with
    | .accepts => { exitCode := 0, errMsg := none, stderr := [] }
    | .rejects e => { exitCode := 1, errMsg := some e.prettyError, stderr := [] }
    | .panics =>
      { exitCode := 101, errMsg := some "panicked during single-file analysis"
        stderr := [] }
  | .csvFile records => pipelineRun analyzer newAnalyzer skip (csvSources records)
  | .sqlite rows => pipelineRun analyzer newAnalyzer skip rows
  | .openError e => { exitCode := 1, errMsg := some e, stderr := [] }

/-- Decidable substring check used to state claims about report wording:
true when needle occurs as a contiguous substring of hay. -/
def subListOf (needle : List Char) : List Char → Bool
  | [] => needle.isEmpty
  | c :: t => needle.isPrefixOf (c :: t) || subListOf needle t

/-- String version of the substring check. -/
def containsStr (hay needle : String) : Bool :=
  subListOf needle.data hay.data

/-- Sample structured error for concrete instantiations. -/
def sampleError : FluxError :=
  { pretty := fun source => "error at " ++ source
    prettyError := "sample pretty error" }

/-- Analyzer configuration that accepts every source. -/
def alwaysAccept : String → AnalysisBehavior := fun _ => .accepts

/-- Analyzer configuration that rejects every source with sampleError. -/
def alwaysReject : String → AnalysisBehavior := fun _ => .rejects sampleError

/-- Analyzer configuration that crashes on every source. -/
def alwaysCrash : String → AnalysisBehavior := fun _ => .panics

/-- C1, claim as frozen: the report for a (Rejected, Accepted) item is
stated to read "missing errors when new features are enabled". The code
prints "Missing errors when the features are enabled" (line 130): at a
concrete (Rejected, Accepted) item, no emitted line contains the phrase
fragment "when new features are enabled" in any casing of the claimed
wording. -/
theorem C1_counterexample :
    processItem alwaysReject alwaysAccept 0 "q" =
      .ok ["### 0", "q",
        "Missing errors when the features are enabled: error at q",
        "-------------------------------"] ∧
    (["### 0", "q",
      "Missing errors when the features are enabled: error at q",
      "-------------------------------"].all
        fun line => !containsStr line "when new features are enabled") = true :=
  ⟨rfl, by decide⟩

/-- C1 (amended): for every item whose baseline analysis is Rejected and
whose candidate analysis is Accepted, the worker emits exactly one
divergence report, consisting of the index header, the item source text,
the line "Missing errors when the features are enabled: " followed by the
baseline error pretty-rendered against the source text, and the
separator. -/
theorem C1_missing_errors_report (a c : String → AnalysisBehavior) (i : Nat)
    (s : String) (e : FluxError) (ha : a s = .rejects e) (hc : c s = .accepts) :
    processItem a c i s =
      .ok [headerLine i, s, missingErrorsLine (e.pretty s), separatorLine] := by
  simp [processItem, catchUnwind, ha, hc]

/-- Witness for C1_missing_errors_report at a concrete item. -/
theorem C1_missing_errors_report_witness :
    processItem alwaysReject alwaysAccept 5 "w" =
      .ok [headerLine 5, "w", missingErrorsLine (sampleError.pretty "w"),
        separatorLine] :=
  C1_missing_errors_report alwaysReject alwaysAccept 5 "w" sampleError rfl rfl

/-- C2, claim as frozen: the report for an (Accepted, Rejected) item is
stated to read "new errors when new features are enabled". The code
prints "New errors when the features are enabled" (line 140): at a
concrete (Accepted, Rejected) item, no emitted line contains the phrase
fragment "when new features are enabled" in any casing of the claimed
wording. -/
theorem C2_counterexample :
    processItem alwaysAccept alwaysReject 0 "q" =
      .ok ["### 0", "q",
        "New errors when the features are enabled: error at q",
        "-------------------------------"] ∧
    (["### 0", "q",
      "New errors when the features are enabled: error at q",
      "-------------------------------"].all
        fun line => !containsStr line "when new features are enabled") = true :=
  ⟨rfl, by decide⟩

/-- C2 (amended): for every item whose baseline analysis is Accepted and
whose candidate analysis is Rejected, the worker emits exactly one
divergence report, consisting of the index header, the item source text,
the line "New errors when the features are enabled: " followed by the
candidate error pretty-rendered against the source text, and the
separator. -/
theorem C2_new_errors_report (a c : String → AnalysisBehavior) (i : Nat)
    (s : String) (e : FluxError) (ha : a s = .accepts) (hc : c s = .rejects e) :
    processItem a c i s =
      .ok [headerLine i, s, newErrorsLine (e.pretty s), separatorLine] := by
  simp [processItem, catchUnwind, ha, hc]

/-- Witness for C2_new_errors_report at a concrete item. -/
theorem C2_new_errors_report_witness :
    processItem alwaysAccept alwaysReject 7 "v" =
      .ok [headerLine 7, "v", newErrorsLine (sampleError.pretty "v"),
        separatorLine] :=
  C2_new_errors_report alwaysAccept alwaysReject 7 "v" sampleError rfl rfl

/-- C4: when either analyzer call crashes on an item, the worker result
is the re-raised fatal failure whose message carries the item index and
raw source text; in particular no report path and no Rejected
classification is taken for that item. -/
theorem C4_crash_is_fatal (a c : String → AnalysisBehavior) (i : Nat)
    (s : String) (h : a s = .panics ∨ c s = .panics) :
    processItem a c i s = .error (panicMsg i s) := by
  rcases h with h | h
  · simp [processItem, catchUnwind, h]
  · cases ha : a s <;> simp [processItem, catchUnwind, ha, h]

/-- Witness for C4_crash_is_fatal at a concrete item. -/
theorem C4_crash_is_fatal_witness :
    processItem alwaysCrash alwaysAccept 2 "p" = .error (panicMsg 2 "p") :=
  C4_crash_is_fatal alwaysCrash alwaysAccept 2 "p" (Or.inl rfl)

/-- C5: for a .flux input, the candidate configuration analyzes the file
contents once and the process terminates immediately, bypassing the
pipeline stages (no stage output is produced, and the result does not
depend on the baseline analyzer or the skip argument): exit code 0 when
the snippet is accepted, and a nonzero exit carrying the pretty-printed
analyzer error when it is rejected. -/
theorem C5_flux_fast_path (a c : String → AnalysisBehavior)
    (skip : Option Nat) (src : String) :
    (c src = .accepts →
      mainRun a c skip (.fluxFile src) = ⟨0, none, []⟩) ∧
    (∀ e, c src = .rejects e →
      mainRun a c skip (.fluxFile src) = ⟨1, some e.prettyError, []⟩) := by
  refine ⟨fun h => ?_, fun e h => ?_⟩
  · simp [mainRun, h]
  · simp [mainRun, h]

/-- Witness for C5_flux_fast_path at a concrete rejected snippet. -/
theorem C5_flux_fast_path_witness :
    mainRun alwaysAccept alwaysReject none (.fluxFile "x") =
      ⟨1, some sampleError.prettyError, []⟩ :=
  (C5_flux_fast_path alwaysAccept alwaysReject none "x").2 sampleError rfl

/-- A skipped index bounds every smaller index: skipping is downward
closed. -/
theorem skipB_mono (skip : Option Nat) (i j : Nat) (hij : i ≤ j)
    (h : skipB skip j = true) : skipB skip i = true := by
  cases skip with
  | none => simp [skipB] at h
  | some k =>
    simp only [skipB, decide_eq_true_eq] at h ⊢
    omega

/-- Dispatcher loop over an all-ok corpus once the running index has
passed the skip bound: every remaining item is sent with its original
index. -/
theorem dispatchFrom_ok_of_le (k : Nat) :
    ∀ (l : List String) (i : Nat), k ≤ i →
      dispatchFrom (some k) i (l.map Except.ok) = (l.enumFrom i, none)
  | [], _, _ => by simp [dispatchFrom, List.enumFrom]
  | s :: rest, i, h => by
    have ih := dispatchFrom_ok_of_le k rest (i + 1) (Nat.le_succ_of_le h)
    simp [dispatchFrom, List.enumFrom, skipB, Nat.not_lt.mpr h, ih]

/-- Dispatcher loop over an all-ok corpus, starting below the skip
bound: the discarded items are exactly those before the bound and each
sent item keeps its original index. -/
theorem dispatchFrom_map_ok (k : Nat) :
    ∀ (l : List String) (i : Nat), i ≤ k →
      dispatchFrom (some k) i (l.map Except.ok) =
        ((l.drop (k - i)).enumFrom k, none)
  | [], _, _ => by simp [dispatchFrom, List.enumFrom]
  | s :: rest, i, h => by
    rcases Nat.lt_or_ge i k with hik | hik
    · have ih := dispatchFrom_map_ok k rest (i + 1) hik
      have hdrop : (s :: rest).drop (k - i) = rest.drop (k - (i + 1)) := by
        have hsucc : k - i = (k - (i + 1)) + 1 := by omega
        rw [hsucc, List.drop_succ_cons]
      simp [dispatchFrom, skipB, hik, ih, hdrop]
    · have hik2 : i = k := Nat.le_antisymm h hik
      subst hik2
      have ih := dispatchFrom_ok_of_le i rest (i + 1) (Nat.le_succ i)
      simp [dispatchFrom, skipB, ih, List.enumFrom]

/-- The dispatcher loop finishes without an error exactly when every
failing element of the remaining corpus sits at a skipped index. -/
theorem dispatchFrom_none_iff (skip : Option Nat) :
    ∀ (sources : List (Except String String)) (i : Nat),
      (dispatchFrom skip i sources).2 = none ↔
        ∀ j e, sources[j]? = some (.error e) → skipB skip (i + j) = true
  | [], i => by simp [dispatchFrom]
  | r :: rest, i => by
    have ih := dispatchFrom_none_iff skip rest (i + 1)
    by_cases hs : skipB skip i = true
    · have hres : dispatchFrom skip i (r :: rest) =
          dispatchFrom skip (i + 1) rest := by
        simp only [dispatchFrom]
        rw [if_pos hs]
      rw [hres, ih]
      constructor
      · intro h j e hj
        cases j with
        | zero => simpa using hs
        | succ m =>
          have hm := h m e (by simpa using hj)
          have harith : i + 1 + m = i + (m + 1) := by omega
          rwa [harith] at hm
      · intro h j e hj
        have hm := h (j + 1) e (by simpa using hj)
        have harith : i + (j + 1) = i + 1 + j := by omega
        rwa [harith] at hm
    · cases r with
      | error e0 =>
        have hres : dispatchFrom skip i (Except.error e0 :: rest) =
            ([], some e0) := by
          simp only [dispatchFrom]
          rw [if_neg hs]
        rw [hres]
        simp only [reduceCtorEq, false_iff, not_forall]
        refine ⟨0, e0, by simp, ?_⟩
        simpa using hs
      | ok s =>
        have hres : (dispatchFrom skip i (Except.ok s :: rest)).2 =
            (dispatchFrom skip (i + 1) rest).2 := by
          simp only [dispatchFrom]
          rw [if_neg hs]
        rw [hres, ih]
        constructor
        · intro h j e hj
          cases j with
          | zero => simp at hj
          | succ m =>
            have hm := h m e (by simpa using hj)
            have harith : i + 1 + m = i + (m + 1) := by omega
            rwa [harith] at hm
        · intro h j e hj
          have hm := h (j + 1) e (by simpa using hj)
          have harith : i + (j + 1) = i + 1 + j := by omega
          rwa [harith] at hm

/-- Replacing an element at a skipped index changes nothing about the
dispatcher loop: the element is discarded before its result is
inspected. -/
theorem dispatchFrom_set_error (skip : Option Nat) (e : String) :
    ∀ (sources : List (Except String String)) (i j : Nat),
      skipB skip (i + j) = true →
      dispatchFrom skip i (sources.set j (.error e)) =
        dispatchFrom skip i sources
  | [], _, _, _ => by simp
  | r :: rest, i, 0, h => by
    have hi : skipB skip i = true := by simpa using h
    simp [dispatchFrom, hi]
  | r :: rest, i, j + 1, h => by
    have hi : skipB skip i = true :=
      skipB_mono skip i (i + (j + 1)) (Nat.le_add_right _ _) h
    have ih := dispatchFrom_set_error skip e rest (i + 1) j
      (by have harith : i + 1 + j = i + (j + 1) := by omega
          rwa [harith])
    simp [dispatchFrom, hi, ih]

/-- C3: over a corpus of size M whose elements all produce, with skip k
at most M, the Dispatcher sends exactly the items of the original index
window from k to M: the sent list has M minus k entries, its indices are
the contiguous range starting at k, and each sent pair carries the
source at its original 0-based corpus position. -/
theorem C3_dispatch_skip_window (corpus : List String) (k : Nat)
    (_hk : k ≤ corpus.length) :
    dispatch (some k) (corpus.map Except.ok) =
      ((corpus.drop k).enumFrom k, none) ∧
    ((corpus.drop k).enumFrom k).length = corpus.length - k ∧
    ((corpus.drop k).enumFrom k).map Prod.fst =
      List.range' k (corpus.length - k) ∧
    ∀ i s, (i, s) ∈ (corpus.drop k).enumFrom k → corpus[i]? = some s := by
  refine ⟨?_, ?_, ?_, ?_⟩
  · simpa using dispatchFrom_map_ok k corpus 0 (Nat.zero_le k)
  · simp [List.enumFrom_length]
  · rw [List.enumFrom_map_fst, List.length_drop]
  · intro i s hmem
    rw [List.mk_mem_enumFrom_iff_le_and_getElem?_sub] at hmem
    obtain ⟨hki, hget⟩ := hmem
    rw [List.getElem?_drop] at hget
    rwa [Nat.add_sub_cancel' hki] at hget

/-- Witness for C3_dispatch_skip_window on a three-item corpus with skip
one, evaluated to the concrete sent list. -/
theorem C3_dispatch_skip_window_witness :
    dispatch (some 1) (["a", "b", "c"].map Except.ok) =
      ((["a", "b", "c"].drop 1).enumFrom 1, none) :=
  (C3_dispatch_skip_window ["a", "b", "c"] 1 (by decide)).1

/-- C6, claim as frozen: a failing corpus element always aborts the
Dispatcher. Refuted when skip is set: with skip one, a corpus whose only
element fails is dispatched to completion with no error and nothing
sent. -/
theorem C6_counterexample :
    dispatch (some 1) [Except.error "boom"] = ([], none) := by
  decide

/-- C6 (amended): the Dispatcher finishes without an error exactly when
every failing corpus element sits at an index discarded by skip; any
failing element at a non-discarded index aborts the stage with its
error, and is never skipped over while the run continues. -/
theorem C6_element_failure_aborts (skip : Option Nat)
    (sources : List (Except String String)) :
    (dispatch skip sources).2 = none ↔
      ∀ j e, sources[j]? = some (.error e) → skipB skip j = true := by
  have h := dispatchFrom_none_iff skip sources 0
  simpa [dispatch] using h

/-- Witness for C6_element_failure_aborts: with skip unset a failing
first element aborts the stage. -/
theorem C6_element_failure_aborts_witness :
    (dispatch none [Except.error "boom"]).2 ≠ none := by
  intro h
  have hall := (C6_element_failure_aborts none [Except.error "boom"]).mp h
  have := hall 0 "boom" (by simp)
  simp [skipB] at this

/-- C10: an element whose production fails at an index below skip is
silently discarded: the Dispatcher result is unchanged when any element
at such an index is replaced by a failure (nothing is sent for it and the
stage does not abort), and the stage aborts exactly on failures at
non-discarded indices. -/
theorem C10_pre_skip_failure_discarded (k : Nat)
    (sources : List (Except String String)) (j : Nat) (e : String)
    (hj : j < k) :
    dispatch (some k) (sources.set j (.error e)) =
      dispatch (some k) sources ∧
    ((dispatch (some k) sources).2 = none ↔
      ∀ m e2, sources[m]? = some (.error e2) → m < k) := by
  constructor
  · exact dispatchFrom_set_error (some k) e sources 0 j
      (by simpa [skipB] using hj)
  · have h := dispatchFrom_none_iff (some k) sources 0
    simpa [dispatch, skipB] using h

/-- Witness for C10_pre_skip_failure_discarded: corrupting the first
element of a two-item corpus under skip two changes nothing. -/
theorem C10_pre_skip_failure_discarded_witness :
    dispatch (some 2) ([Except.ok "a", Except.ok "b"].set 0
        (Except.error "x")) =
      dispatch (some 2) [Except.ok "a", Except.ok "b"] :=
  (C10_pre_skip_failure_discarded 2 [Except.ok "a", Except.ok "b"] 0 "x"
    (by decide)).1

/-- C7: for a tabular corpus whose record reader yields the given rows,
the produced sequence has exactly one element per row, in file order, and
the element for a row whose first column is x is the source text x. -/
theorem C7_csv_first_column (rows : List (List String)) :
    (csvSources (rows.map Except.ok)).length = rows.length ∧
    ∀ (j : Nat) (x : String) (xs : List String), rows[j]? = some (x :: xs) →
      (csvSources (rows.map Except.ok))[j]? = some (Except.ok x) := by
  constructor
  · simp [csvSources]
  · intro j x xs hj
    simp [csvSources, List.getElem?_map, hj, csvElement]

/-- Witness for C7_csv_first_column on a concrete two-row corpus. -/
theorem C7_csv_first_column_witness :
    (csvSources ([["q1", "meta"], ["q2"]].map Except.ok))[0]? =
      some (Except.ok "q1") :=
  (C7_csv_first_column [["q1", "meta"], ["q2"]]).2 0 "q1" ["meta"] rfl

/-- The Reporter count equals the number of completion signals
received. -/
theorem reporterRun_count (n : Nat) : (reporterRun n).1 = n := by
  induction n with
  | zero => rfl
  | succ p ih => simp [reporterRun, ih]

/-- Every positive multiple of 100 at most the number of completions has
its heartbeat among the emitted lines. -/
theorem heartbeat_emitted (n m : Nat) (hm : 0 < m) (hmod : m % 100 = 0) :
    m ≤ n → heartbeatLine m ∈ (reporterRun n).2 := by
  induction n with
  | zero => intro h; omega
  | succ p ih =>
    intro hmn
    by_cases hmp : m ≤ p
    · simp only [reporterRun]
      exact List.mem_append_left _ (ih hmp)
    · have hmeq : m = p + 1 := by omega
      subst hmeq
      simp only [reporterRun, reporterRun_count]
      apply List.mem_append_right
      simp [hmod]

/-- Every line the Reporter emits is a heartbeat for a count that is a
multiple of 100. -/
theorem heartbeat_sound (n : Nat) :
    ∀ line ∈ (reporterRun n).2, ∃ m, line = heartbeatLine m ∧ m % 100 = 0 := by
  induction n with
  | zero => intro line h; simp [reporterRun] at h
  | succ p ih =>
    intro line h
    simp only [reporterRun] at h
    rcases List.mem_append.mp h with h1 | h2
    · exact ih line h1
    · by_cases hc : ((reporterRun p).1 + 1) % 100 == 0
      · rw [if_pos hc] at h2
        simp only [List.mem_singleton] at h2
        subst h2
        exact ⟨(reporterRun p).1 + 1, rfl, by simpa using hc⟩
      · rw [if_neg hc] at h2
        simp at h2

/-- C8: after the Reporter has counted n completion signals with
100 times k at most n (k positive), the heartbeat reporting the
cumulative count 100 times k has been emitted; the count equals the
number of signals; and every emitted heartbeat reports a count that is a
multiple of 100, so no heartbeat is emitted at a non-multiple. -/
theorem C8_heartbeat_cadence (n k : Nat) (hk : 1 ≤ k) (hkn : 100 * k ≤ n) :
    heartbeatLine (100 * k) ∈ (reporterRun n).2 ∧
    (reporterRun n).1 = n ∧
    ∀ line ∈ (reporterRun n).2, ∃ m, line = heartbeatLine m ∧ m % 100 = 0 :=
  ⟨heartbeat_emitted n (100 * k) (by omega) (Nat.mul_mod_right 100 k) hkn,
   reporterRun_count n, heartbeat_sound n⟩

/-- Witness for C8_heartbeat_cadence: the heartbeat for 100 is emitted
once 100 items have been counted. -/
theorem C8_heartbeat_cadence_witness :
    heartbeatLine 100 ∈ (reporterRun 100).2 :=
  (C8_heartbeat_cadence 100 1 (by decide) (by omega)).1

/-- When no worker panicked, the completion count equals the number of
items sent to the Comparator Pool. -/
theorem comparatorRun_complete_count (a c : String → AnalysisBehavior)
    (items : List (Nat × String))
    (h : (comparatorRun a c items).2 = none) :
    (comparatorRun a c items).1.2 = items.length := by
  induction items with
  | nil => rfl
  | cons x rest ih =>
    obtain ⟨i, s⟩ := x
    cases hp : processItem a c i s with
    | error msg => simp [comparatorRun, hp] at h
    | ok reports =>
      simp only [comparatorRun, hp] at h ⊢
      simp [ih h]

/-- C9 (amended): when the pipeline path runs and neither the Dispatcher
nor a worker fails, the process exits zero and its stderr ends with the
final summary line reporting the number of fully processed items; when
the Dispatcher or a worker fails, the process exits nonzero carrying a
diagnostic; a corpus that fails to open likewise exits nonzero with its
error. The successful single-file fast path exits zero without a summary
line (see the counterexample). -/
theorem C9_exit_behavior (a c : String → AnalysisBehavior)
    (skip : Option Nat) (rows : List (Except String String)) (e : String) :
    ((dispatch skip rows).2 = none →
      (comparatorRun a c (dispatch skip rows).1).2 = none →
      pipelineRun a c skip rows =
        ⟨0, none,
          (comparatorRun a c (dispatch skip rows).1).1.1 ++
            (reporterRun (dispatch skip rows).1.length).2 ++
            [doneLine (dispatch skip rows).1.length]⟩) ∧
    ((dispatch skip rows).2 ≠ none ∨
        (comparatorRun a c (dispatch skip rows).1).2 ≠ none →
      (pipelineRun a c skip rows).exitCode ≠ 0 ∧
      (pipelineRun a c skip rows).errMsg ≠ none) ∧
    mainRun a c skip (.openError e) = ⟨1, some e, []⟩ := by
  refine ⟨?_, ?_, rfl⟩
  · intro hd hw
    have hcount := comparatorRun_complete_count a c (dispatch skip rows).1 hw
    simp [pipelineRun, hd, hw, hcount]
  · intro h
    simp only [pipelineRun]
    cases hw : (comparatorRun a c (dispatch skip rows).1).2 with
    | some msg => simp [hw]
    | none =>
      cases hd : (dispatch skip rows).2 with
      | some e2 => simp [hw, hd]
      | none =>
        rcases h with h | h
        · exact absurd hd h
        · exact absurd hw h

/-- Witness for C9_exit_behavior: a one-item all-accepting run exits
zero with the summary line. -/
theorem C9_exit_behavior_witness :
    pipelineRun alwaysAccept alwaysAccept none [Except.ok "a"] =
      ⟨0, none,
        (comparatorRun alwaysAccept alwaysAccept
            (dispatch none [Except.ok "a"]).1).1.1 ++
          (reporterRun (dispatch none [Except.ok "a"]).1.length).2 ++
          [doneLine (dispatch none [Except.ok "a"]).1.length]⟩ :=
  (C9_exit_behavior alwaysAccept alwaysAccept none [Except.ok "a"] "e").1
    rfl rfl

/-- C9, claim as frozen: every non-failing run is stated to print the
final summary line. Refuted by the single-file fast path: an accepted
.flux snippet makes the process exit zero with empty stderr, so no
summary line is printed although nothing failed. -/
theorem C9_counterexample :
    mainRun alwaysReject alwaysAccept none (.fluxFile "ok snippet") =
      ⟨0, none, []⟩ := rfl

end AnalyzeQueryLog
